import Mathlib

/-!
Verification development for the solar-webui event-stream client
(`src/hooks/useEventStream.ts` and the log merge in
`src/components/LogViewer.tsx`).

The TypeScript hook keeps five state slices (hosts, requests, instance
states, logs, gateway summaries) plus a gateway filter, and folds inbound
WebSocket events into them.  We embed the data model and the `handleEvent`
reducer as plain Lean functions.  `setTimeout`-driven delayed mutations
(auto-removal of successful requests, two-phase removal) are embedded as a
task queue on the state together with an explicit scheduler (`advance`)
that fires tasks in due-time order, earliest first, ties in scheduling
order — the semantics of the browser timer queue.  The reconnection logic
of `connect()` is embedded as a step relation on a connection-manager
state.  Maps keyed by strings are embedded as functions `String → Option _`.
-/

namespace SolarWebUI

/-- `MemoryInfo` from `src/api/types.ts`.  Numeric payload fields are
carried opaquely; the client never computes with them. -/
structure MemoryInfo where
  used_gb : Nat
  total_gb : Nat
  percent : Nat
  memory_type : String
deriving Repr, DecidableEq

/-- `LogMessage` from `src/api/types.ts`. -/
structure LogMessage where
  seq : Nat
  timestamp : String
  line : String
deriving Repr, DecidableEq

/-- `HostStatusData` from `useEventStream.ts`.  Optional TS fields become
`Option`; the `status` string union is kept as a string. -/
structure HostStatusData where
  host_id : String
  name : Option String := none
  status : String := "online"
  url : Option String := none
  memory : Option MemoryInfo := none
  connected : Option Bool := none
  last_seen : Option String := none
  timestamp : Option String := none
deriving Repr, DecidableEq

/-- `LogEventData` from `useEventStream.ts`. -/
structure LogEventData where
  seq : Nat
  line : String
  level : Option String := none
deriving Repr, DecidableEq

/-- `InstanceStateData` from `useEventStream.ts`. -/
structure InstanceStateData where
  busy : Bool
  phase : Option String := none
  prefill_progress : Option Nat := none
  active_slots : Nat := 0
  slot_id : Option Nat := none
  task_id : Option Nat := none
  prefill_prompt_tokens : Option Nat := none
  generated_tokens : Option Nat := none
  decode_tps : Option Nat := none
  decode_ms_per_token : Option Nat := none
  checkpoint_index : Option Nat := none
  checkpoint_total : Option Nat := none
deriving Repr, DecidableEq

/-- `RoutingEventData` from `useEventStream.ts`. -/
structure RoutingEventData where
  request_id : String
  model : Option String := none
  resolved_model : Option String := none
  endpoint : Option String := none
  host_id : Option String := none
  host_name : Option String := none
  instance_id : Option String := none
  instance_url : Option String := none
  error_message : Option String := none
  duration : Option Nat := none
  timestamp : String := ""
  stream : Option Bool := none
  client_ip : Option String := none
  attempt : Option Nat := none
deriving Repr, DecidableEq

/-- `GatewayRequestSummary` from `useEventStream.ts`. -/
structure GatewayRequestSummary where
  request_id : String
  request_type : Option String := none
  status : String := "success"
  model : Option String := none
  resolved_model : Option String := none
  endpoint : Option String := none
  client_ip : Option String := none
  stream : Option Bool := none
  attempts : Nat := 1
  start_timestamp : Option String := none
  end_timestamp : String := ""
  duration_s : Option Nat := none
  host_id : Option String := none
  host_name : Option String := none
  instance_id : Option String := none
  instance_url : Option String := none
  error_message : Option String := none
deriving Repr, DecidableEq

/-- `GatewayFilter` from `useEventStream.ts`. -/
structure GatewayFilter where
  status : String
  request_type : String
  model : Option String := none
  host_id : Option String := none
deriving Repr, DecidableEq

/-- `DEFAULT_FILTER` (useEventStream.ts:162-167). -/
def DEFAULT_FILTER : GatewayFilter :=
  { status := "all", request_type := "all", model := none, host_id := none }

/-- `RequestState` from `useEventStream.ts`.  `removing?` is optional in
TS, hence `Option Bool`. -/
structure RequestState where
  request_id : String
  model : Option String := none
  resolved_model : Option String := none
  endpoint : Option String := none
  host_id : Option String := none
  host_name : Option String := none
  instance_id : Option String := none
  instance_url : Option String := none
  status : String
  error_message : Option String := none
  duration : Option Nat := none
  timestamp : String
  stream : Option Bool := none
  client_ip : Option String := none
  removing : Option Bool := none
deriving Repr, DecidableEq

/-- The runtime shape of `event.data` per discriminant.  The TS payload is
`any`; the shapes below are the ones the reducer actually reads. -/
inductive EventData where
  | hosts (l : List HostStatusData)
  | host (h : HostStatusData)
  | log (d : LogEventData)
  | instState (d : InstanceStateData)
  | health (memory : Option MemoryInfo)
  | routing (d : RoutingEventData)
  | gateway (g : GatewayRequestSummary)
deriving Repr, DecidableEq

/-- `WSEvent` envelope from `useEventStream.ts`. -/
structure WSEvent where
  type : String
  host_id : Option String := none
  host_name : Option String := none
  instance_id : Option String := none
  timestamp : Option String := none
  data : Option EventData := none
  filter : Option GatewayFilter := none
deriving Repr, DecidableEq

/-- Timer callbacks scheduled by the request-lifecycle reducer:
the 5000 ms auto-removal set in the `request_success` branch, and the
350 ms physical deletion set in `removeRequest`. -/
inductive PendingTask where
  | autoRemove (request_id : String)
  | deleteEntry (request_id : String)
deriving Repr, DecidableEq

/-- The five state slices plus the gateway filter, together with the queue
of pending timers (`(dueTime, callback)` pairs, in scheduling order). -/
structure DashState where
  hosts : String → Option HostStatusData
  requests : String → Option RequestState
  instanceStates : String → Option InstanceStateData
  logs : String → List LogMessage
  gatewayRequests : List GatewayRequestSummary
  gatewayFilter : GatewayFilter
  tasks : List (Nat × PendingTask)

/-- The hook's initial state (all maps empty, filter at default). -/
def initState : DashState :=
  { hosts := fun _ => none
    requests := fun _ => none
    instanceStates := fun _ => none
    logs := fun _ => []
    gatewayRequests := []
    gatewayFilter := DEFAULT_FILTER
    tasks := [] }

/-- The composite key `` `${hostId}:${instanceId}` `` used by the log and
instance-state slices. -/
def logKey (hostId instanceId : String) : String :=
  hostId ++ ":" ++ instanceId

/-- The fresh entry built by `updateRequest` when no entry exists
(useEventStream.ts:195-200), before the call site's updates are spread
over it. -/
def freshRequest (requestId : String) (nowIso : String) : RequestState :=
  { request_id := requestId, status := "pending", timestamp := nowIso }

/-- `updateRequest` (useEventStream.ts:188-204): look up the entry, apply
the call site's spread (`{ ...existing, ...updates }`) to it, or to a
fresh pending entry when absent. -/
def updateRequest (nowIso : String) (requestId : String)
    (merge : RequestState → RequestState)
    (reqs : String → Option RequestState) : String → Option RequestState :=
  fun k =>
    if k = requestId then
      some (merge ((reqs requestId).getD (freshRequest requestId nowIso)))
    else reqs k

/-- The `request_start` spread (useEventStream.ts:302-309): the listed
keys are always present in the update object, so they overwrite
unconditionally (with `undefined` when missing from the payload). -/
def applyStart (d : RoutingEventData) (e : RequestState) : RequestState :=
  { e with model := d.model, endpoint := d.endpoint, status := "pending",
           timestamp := d.timestamp, stream := d.stream,
           client_ip := d.client_ip }

/-- The `request_routed` spread (useEventStream.ts:316-323). -/
def applyRouted (d : RoutingEventData) (e : RequestState) : RequestState :=
  { e with host_id := d.host_id, host_name := d.host_name,
           instance_id := d.instance_id, instance_url := d.instance_url,
           resolved_model := d.resolved_model, status := "processing" }

/-- The `request_success` spread (useEventStream.ts:330-333). -/
def applySuccess (d : RoutingEventData) (e : RequestState) : RequestState :=
  { e with status := "success", duration := d.duration }

/-- The `request_error` spread (useEventStream.ts:344-350). -/
def applyError (d : RoutingEventData) (e : RequestState) : RequestState :=
  { e with status := "error", error_message := d.error_message,
           duration := d.duration, host_id := d.host_id,
           instance_id := d.instance_id }

/-- `removeRequest` (useEventStream.ts:206-223) called at wall-clock time
`now`: phase one marks the entry `removing` immediately; phase two is a
350 ms timer that physically deletes the entry. -/
def removeRequest (now : Nat) (requestId : String) (s : DashState) : DashState :=
  { s with
    requests := fun k =>
      if k = requestId then
        (s.requests requestId).map (fun e => { e with removing := some true })
      else s.requests k
    tasks := s.tasks ++ [(now + 350, PendingTask.deleteEntry requestId)] }

/-- The per-key log append `[...existing, logMsg].slice(-1000)`
(useEventStream.ts:263). -/
def appendLog (existing : List LogMessage) (m : LogMessage) : List LogMessage :=
  (existing ++ [m]).drop (existing.length + 1 - 1000)

/-- The `initial_status` branch builds a fresh host map from the payload
array (useEventStream.ts:231-235); later array entries win, as with
`Map.set`. -/
def hostsOfList (l : List HostStatusData) : String → Option HostStatusData :=
  l.foldl (fun m h => fun k => if k = h.host_id then some h else m k) (fun _ => none)

/-- The `initial_status` branch (useEventStream.ts:229-238): bulk-replace
the hosts map from the payload array. -/
def handleInitialStatus (e : WSEvent) (s : DashState) : DashState :=
  match e.data with
  | some (EventData.hosts l) => { s with hosts := hostsOfList l }
  | _ => s

/-- The `host_status` branch (useEventStream.ts:240-249): upsert the full
payload object at its host id. -/
def handleHostStatus (e : WSEvent) (s : DashState) : DashState :=
  match e.data with
  | some (EventData.host h) =>
      { s with hosts := fun k => if k = h.host_id then some h else s.hosts k }
  | _ => s

/-- The `log` branch (useEventStream.ts:251-269): ring-bounded append at
the composite key. -/
def handleLog (nowIso : String) (e : WSEvent) (s : DashState) : DashState :=
  match e.host_id, e.instance_id, e.data with
  | some hid, some iid, some (EventData.log d) =>
      if hid ≠ "" ∧ iid ≠ "" then
        let key := logKey hid iid
        let logMsg : LogMessage :=
          { seq := d.seq, timestamp := e.timestamp.getD nowIso, line := d.line }
        { s with logs := fun k =>
            if k = key then appendLog (s.logs key) logMsg else s.logs k }
      else s
  | _, _, _ => s

/-- The `instance_state` branch (useEventStream.ts:271-281): full-value
replacement at the composite key. -/
def handleInstanceState (e : WSEvent) (s : DashState) : DashState :=
  match e.host_id, e.instance_id, e.data with
  | some hid, some iid, some (EventData.instState d) =>
      if hid ≠ "" ∧ iid ≠ "" then
        { s with instanceStates := fun k =>
            if k = logKey hid iid then some d else s.instanceStates k }
      else s
  | _, _, _ => s

/-- The `host_health` branch (useEventStream.ts:283-298): patch only the
memory field of an existing host entry; no-op if the host is unknown. -/
def handleHostHealth (e : WSEvent) (s : DashState) : DashState :=
  match e.host_id, e.data with
  | some hid, some (EventData.health mem) =>
      if hid ≠ "" then
        { s with hosts := fun k =>
            if k = hid then (s.hosts hid).map (fun ex => { ex with memory := mem })
            else s.hosts k }
      else s
  | _, _ => s

/-- The `request_start` branch (useEventStream.ts:300-312). -/
def handleRequestStart (nowIso : String) (e : WSEvent) (s : DashState) : DashState :=
  match e.data with
  | some (EventData.routing d) =>
      if d.request_id ≠ "" then
        { s with requests := updateRequest nowIso d.request_id (applyStart d) s.requests }
      else s
  | _ => s

/-- The `request_routed` branch (useEventStream.ts:314-326). -/
def handleRequestRouted (nowIso : String) (e : WSEvent) (s : DashState) : DashState :=
  match e.data with
  | some (EventData.routing d) =>
      if d.request_id ≠ "" then
        { s with requests := updateRequest nowIso d.request_id (applyRouted d) s.requests }
      else s
  | _ => s

/-- The `request_success` branch (useEventStream.ts:328-340): update the
entry and schedule auto-removal 5000 ms later. -/
def handleRequestSuccess (now : Nat) (nowIso : String) (e : WSEvent) (s : DashState) :
    DashState :=
  match e.data with
  | some (EventData.routing d) =>
      if d.request_id ≠ "" then
        { s with
          requests := updateRequest nowIso d.request_id (applySuccess d) s.requests
          tasks := s.tasks ++ [(now + 5000, PendingTask.autoRemove d.request_id)] }
      else s
  | _ => s

/-- The `request_error` branch (useEventStream.ts:342-353): update the
entry; no removal is scheduled. -/
def handleRequestError (nowIso : String) (e : WSEvent) (s : DashState) : DashState :=
  match e.data with
  | some (EventData.routing d) =>
      if d.request_id ≠ "" then
        { s with requests := updateRequest nowIso d.request_id (applyError d) s.requests }
      else s
  | _ => s

/-- The `gateway_request` branch (useEventStream.ts:359-370): prepend and
keep the newest 500. -/
def handleGatewayRequest (e : WSEvent) (s : DashState) : DashState :=
  match e.data with
  | some (EventData.gateway g) =>
      { s with gatewayRequests := (g :: s.gatewayRequests).take 500 }
  | _ => s

/-- The `filter_status` branch (useEventStream.ts:372-378): authoritative
overwrite of the local filter. -/
def handleFilterStatus (e : WSEvent) (s : DashState) : DashState :=
  match e.filter with
  | some f => { s with gatewayFilter := f }
  | _ => s

/-- `handleEvent` (useEventStream.ts:225-384), the event demultiplexer:
dispatch on the discriminant string; `request_reroute` only invokes an
external callback and `keepalive` is ignored, so both leave the state
unchanged, as does any unrecognized discriminant (no `default` arm in the
source switch).  `now` is the wall-clock time in ms (for `setTimeout`
scheduling), `nowIso` the value `new Date().toISOString()` would produce.
Truthiness guards on strings in the TS source (`event.host_id && ...`,
`event.data?.request_id`) become `≠ ""` tests. -/
def handleEvent (now : Nat) (nowIso : String) (e : WSEvent) (s : DashState) : DashState :=
  if e.type = "initial_status" then handleInitialStatus e s
  else if e.type = "host_status" then handleHostStatus e s
  else if e.type = "log" then handleLog nowIso e s
  else if e.type = "instance_state" then handleInstanceState e s
  else if e.type = "host_health" then handleHostHealth e s
  else if e.type = "request_start" then handleRequestStart nowIso e s
  else if e.type = "request_routed" then handleRequestRouted nowIso e s
  else if e.type = "request_success" then handleRequestSuccess now nowIso e s
  else if e.type = "request_error" then handleRequestError nowIso e s
  else if e.type = "request_reroute" then s
  else if e.type = "gateway_request" then handleGatewayRequest e s
  else if e.type = "filter_status" then handleFilterStatus e s
  else if e.type = "keepalive" then s
  else s

/-- Run one fired timer callback at time `now`.  `autoRemove` is the body
of the 5000 ms timer in the `request_success` branch, which calls
`removeRequest`; `deleteEntry` is the body of the 350 ms timer inside
`removeRequest`. -/
def runTask (now : Nat) (t : PendingTask) (s : DashState) : DashState :=
  match t with
  | PendingTask.autoRemove id => removeRequest now id s
  | PendingTask.deleteEntry id =>
      { s with requests := fun k => if k = id then none else s.requests k }

/-- Extract the pending task with the smallest due time (ties resolved in
scheduling order), as the browser timer queue does. -/
def pickMin : List (Nat × PendingTask) → Option ((Nat × PendingTask) × List (Nat × PendingTask))
  | [] => none
  | x :: xs =>
    match pickMin xs with
    | none => some (x, [])
    | some (y, ys) => if x.1 ≤ y.1 then some (x, xs) else some (y, x :: ys)

/-- Advance wall-clock time to `t`: repeatedly fire the earliest pending
task whose due time has been reached.  `fuel` bounds the number of fired
tasks (each theorem supplies enough fuel for its scenario). -/
def advance : Nat → Nat → DashState → DashState
  | 0, _, s => s
  | fuel + 1, t, s =>
    match pickMin s.tasks with
    | none => s
    | some ((ft, task), rest) =>
      if ft ≤ t then advance fuel t (runTask ft task { s with tasks := rest }) else s

/-- Phase of the single socket owned by `connect()`
(useEventStream.ts:411-464): created (`new WebSocket`) but not yet open,
or open (`onopen` fired). -/
inductive SockPhase where
  | connecting
  | opened
deriving Repr, DecidableEq

/-- Connection-manager state: the current socket (if any), the
slice-visible `isConnected` flag, whether the 25 s keepalive interval is
running, and the number of live reconnect timers.  The count is a `Nat`
(not a `Bool`) precisely so that "at most one reconnect timer" is a
theorem, not a modelling artifact: `onclose` schedules unconditionally and
would leak a second timer if one were already pending. -/
structure ConnState where
  sock : Option SockPhase
  isConnected : Bool
  pingActive : Bool
  pendingReconnects : Nat
deriving Repr, DecidableEq

/-- State right after the mount effect's initial `connect()` call
(useEventStream.ts:466-467): a socket is connecting, nothing else set. -/
def connInit : ConnState :=
  { sock := some SockPhase.connecting, isConnected := false,
    pingActive := false, pendingReconnects := 0 }

/-- Reachable connection-manager states.  Each step mirrors one handler of
`connect()`:
* `onOpen` (ts:418-429): marks connected, stores the socket, starts the
  keepalive interval;
* `onError` (ts:444-446): only logs — no state change;
* `onClose` (ts:448-461): clears the connected flag and the keepalive
  interval and schedules one reconnect timer;
* `timerFire` (ts:458-460): a pending reconnect timer fires and calls
  `connect()`, creating a new connecting socket.
`connect()` is invoked only from the mount effect and from the reconnect
timer, which is what makes the at-most-one-timer invariant hold. -/
inductive ConnReach : ConnState → Prop where
  | init : ConnReach connInit
  | onOpen {s : ConnState} : ConnReach s → s.sock = some SockPhase.connecting →
      ConnReach { s with sock := some SockPhase.opened, isConnected := true,
                         pingActive := true }
  | onError {s : ConnState} : ConnReach s → ConnReach s
  | onClose {s : ConnState} : ConnReach s → s.sock ≠ none →
      ConnReach { sock := none, isConnected := false, pingActive := false,
                  pendingReconnects := s.pendingReconnects + 1 }
  | timerFire {s : ConnState} : ConnReach s → 1 ≤ s.pendingReconnects →
      ConnReach { s with sock := some SockPhase.connecting,
                         pendingReconnects := s.pendingReconnects - 1 }

/-- Strengthened reachability invariant: a reconnect timer is only ever
pending while no socket exists (the timer is the sole caller of
`connect()` after a close). -/
theorem connReach_inv {s : ConnState} (h : ConnReach s) :
    s.pendingReconnects ≤ 1 ∧ (s.pendingReconnects = 1 → s.sock = none) := by
  induction h with
  | init => exact ⟨Nat.zero_le 1, fun h1 => by simp [connInit] at h1⟩
  | @onOpen s hr hc ih =>
      refine ⟨ih.1, fun h1 => ?_⟩
      have hn : s.sock = none := ih.2 h1
      rw [hc] at hn
      exact absurd hn (by simp)
  | onError hr ih => exact ih
  | @onClose s hr hc ih =>
      have hne : s.pendingReconnects ≠ 1 := fun h1 => hc (ih.2 h1)
      have h1 : s.pendingReconnects ≤ 1 := ih.1
      have h0 : s.pendingReconnects = 0 := by omega
      refine ⟨?_, fun _ => rfl⟩
      show s.pendingReconnects + 1 ≤ 1
      omega
  | @timerFire s hr hc ih =>
      have h1 : s.pendingReconnects ≤ 1 := ih.1
      refine ⟨?_, fun hp => ?_⟩
      · show s.pendingReconnects - 1 ≤ 1
        omega
      · exfalso
        have hp' : s.pendingReconnects - 1 = 1 := hp
        omega

/-- The filter patch passed to `setFilter` (`Partial<GatewayFilter>`):
`none` means the key is absent from the patch object. -/
structure GatewayFilterPatch where
  status : Option String := none
  request_type : Option String := none
  model : Option (Option String) := none
  host_id : Option (Option String) := none
deriving Repr, DecidableEq

/-- The spread `{ ...prevFilter, ...filter }` in `setFilter`
(useEventStream.ts:390-393). -/
def mergeFilter (prev : GatewayFilter) (p : GatewayFilterPatch) : GatewayFilter :=
  { status := p.status.getD prev.status
    request_type := p.request_type.getD prev.request_type
    model := p.model.getD prev.model
    host_id := p.host_id.getD prev.host_id }

/-- The four `WebSocket.readyState` values. -/
inductive WsReadyState where
  | connecting
  | openReady
  | closingReady
  | closedReady
deriving Repr, DecidableEq

/-- A frame pushed to the server. -/
inductive OutMessage where
  | setFilterMsg (f : GatewayFilter)
deriving Repr, DecidableEq

/-- `setFilter` (useEventStream.ts:388-404): merge the patch over the
previous filter; if `wsRef.current` exists and is OPEN, send exactly the
merged object in a `set_filter` frame; return the merged filter as the new
local value.  `conn` is `wsRef.current`'s ready state (`none` = no socket). -/
def setFilter (conn : Option WsReadyState) (prev : GatewayFilter)
    (p : GatewayFilterPatch) : GatewayFilter × List OutMessage :=
  let newFilter := mergeFilter prev p
  let sent := if conn = some WsReadyState.openReady
              then [OutMessage.setFilterMsg newFilter] else []
  (newFilter, sent)

/-- The thirteen discriminants `handleEvent` recognizes
(useEventStream.ts:228-382). -/
def recognizedEventTypes : List String :=
  ["initial_status", "host_status", "log", "instance_state", "host_health",
   "request_start", "request_routed", "request_success", "request_error",
   "request_reroute", "gateway_request", "filter_status", "keepalive"]

/-- A `host_health` event envelope (host id at the top level, memory
snapshot in the data payload). -/
def healthEvt (hid : String) (mem : Option MemoryInfo) : WSEvent :=
  { type := "host_health", host_id := some hid,
    data := some (EventData.health mem) }

/-- A `host_status` event envelope. -/
def hostStatusEvt (h : HostStatusData) : WSEvent :=
  { type := "host_status", data := some (EventData.host h) }

/-- A routing event envelope of the given discriminant. -/
def routingEvt (ty : String) (d : RoutingEventData) : WSEvent :=
  { type := ty, data := some (EventData.routing d) }

/-- A `log` event envelope for one instance. -/
def logEvt (hid iid : String) (ts : String) (d : LogEventData) : WSEvent :=
  { type := "log", host_id := some hid, instance_id := some iid,
    timestamp := some ts, data := some (EventData.log d) }

/-- One step of the LogViewer dedupe loop (LogViewer.tsx:30-44): skip a
message whose sequence number is in the seen set, otherwise add it to the
seen set and append it to the merged list. -/
def mergeSeen (acc : List Nat × List LogMessage) (m : LogMessage) :
    List Nat × List LogMessage :=
  if m.seq ∈ acc.1 then acc else (m.seq :: acc.1, acc.2 ++ [m])

/-- The ordering of the final `merged.sort((a, b) => a.seq - b.seq)`. -/
def logSeqLE (a b : LogMessage) : Prop := a.seq ≤ b.seq

instance : DecidableRel logSeqLE := fun a b => Nat.decLe a.seq b.seq

instance : IsTotal LogMessage logSeqLE := ⟨fun a b => Nat.le_total a.seq b.seq⟩

instance : IsTrans LogMessage logSeqLE := ⟨fun _ _ _ hab hbc => Nat.le_trans hab hbc⟩

/-- The `messages` merge of LogViewer.tsx:26-48: walk the historical list
then the live list, deduplicating by sequence number (first occurrence
wins), then sort ascending by sequence number. -/
def mergeLogs (historical streamLogs : List LogMessage) : List LogMessage :=
  List.insertionSort logSeqLE (((historical ++ streamLogs).foldl mergeSeen ([], [])).2)

/-- The `LogMessage` built by the `log` branch from a payload and the
event timestamp. -/
def toLogMsg (p : LogEventData × String) : LogMessage :=
  { seq := p.1.seq, timestamp := p.2, line := p.1.line }

/-- A `request_start` payload for the scenario request `r1`. -/
def dStart : RoutingEventData :=
  { request_id := "r1", model := some "llama-7b", endpoint := some "/v1/chat", timestamp := "t0" }

/-- A `request_routed` payload for `r1`. -/
def dRouted : RoutingEventData :=
  { request_id := "r1", host_id := some "h1", host_name := some "alpha",
    instance_id := some "i1", resolved_model := some "llama-7b-q4", timestamp := "t1" }

/-- A `request_success` payload for `r1`. -/
def dSuccess : RoutingEventData :=
  { request_id := "r1", duration := some 1200, timestamp := "t2" }

/-- State after folding `request_start` for `r1` into the empty state. -/
def c1s1 : DashState := handleEvent 0 "t0" (routingEvt "request_start" dStart) initState

/-- State after a further `request_routed` for `r1`. -/
def c1s2 : DashState := handleEvent 0 "t1" (routingEvt "request_routed" dRouted) c1s1

/-- State after a duplicate `request_start` arrives for the already
`processing` request `r1`. -/
def c1s3 : DashState := handleEvent 0 "t2" (routingEvt "request_start" dStart) c1s2

/-- State after the canonical `start; routed; success` sequence for `r1`,
all events handled at wall-clock time 0 ms. -/
def c3s : DashState := handleEvent 0 "t2" (routingEvt "request_success" dSuccess) c1s2

/-- 1500 log payloads for the ring-bound witness. -/
def wMsgs : List (LogEventData × String) :=
  (List.range 1500).map (fun i => ({ seq := i, line := "l" }, "t"))

/-- A host entry without a memory snapshot. -/
def hostA : HostStatusData := { host_id := "h1", status := "online" }

/-- A memory snapshot payload. -/
def memX : Option MemoryInfo :=
  some { used_gb := 10, total_gb := 64, percent := 16, memory_type := "ram" }

/-- A `host_status` payload for `h1` carrying no memory field. -/
def hostB : HostStatusData := { host_id := "h1", status := "offline" }

/-- A state containing only the host `h1` (no memory). -/
def stH : DashState :=
  { initState with hosts := fun k => if k = "h1" then some hostA else none }

/-- A state whose host `h1` carries a memory snapshot (as left behind by a
previous `host_health` event). -/
def stHM : DashState :=
  { initState with hosts := fun k =>
      if k = "h1" then some { hostA with memory := memX } else none }

/-- A pending request entry for the two-phase-removal witness. -/
def reqR : RequestState := freshRequest "r1" "t0"

/-- A state containing only the request `r1`. -/
def stR : DashState :=
  { initState with requests := fun k => if k = "r1" then some reqR else none }

/-- An event with an unrecognized discriminant. -/
def unknownEvt : WSEvent :=
  { type := "future_feature_x", data := some (EventData.gateway { request_id := "g9" }) }

/-- Invariant of the dedupe fold: the seen set tracks exactly the sequence
numbers of the merged list, the merged list has pairwise-distinct sequence
numbers, and its sequence numbers are those of the accumulator plus those
of the input. -/
theorem mergeSeen_fold (ms : List LogMessage) :
    ∀ (seen : List Nat) (acc : List LogMessage),
    (∀ n, n ∈ seen ↔ n ∈ acc.map (fun m => m.seq)) →
    (acc.map (fun m => m.seq)).Nodup →
    (∀ n, n ∈ (ms.foldl mergeSeen (seen, acc)).1 ↔
        n ∈ ((ms.foldl mergeSeen (seen, acc)).2.map (fun m => m.seq)))
    ∧ ((ms.foldl mergeSeen (seen, acc)).2.map (fun m => m.seq)).Nodup
    ∧ (∀ n, n ∈ ((ms.foldl mergeSeen (seen, acc)).2.map (fun m => m.seq)) ↔
        n ∈ acc.map (fun m => m.seq) ∨ n ∈ ms.map (fun m => m.seq)) := by
  induction ms with
  | nil =>
      intro seen acc hseen hnd
      refine ⟨hseen, hnd, fun n => by simp⟩
  | cons m rest ih =>
      intro seen acc hseen hnd
      by_cases hm : m.seq ∈ seen
      · have hstep : mergeSeen (seen, acc) m = (seen, acc) := by
          simp [mergeSeen, hm]
        rw [List.foldl_cons, hstep]
        obtain ⟨a, b, c⟩ := ih seen acc hseen hnd
        refine ⟨a, b, fun n => ?_⟩
        rw [c n]
        have hmem : m.seq ∈ acc.map (fun m => m.seq) := (hseen m.seq).mp hm
        constructor
        · rintro (h | h)
          · exact Or.inl h
          · exact Or.inr (by simp [h])
        · rintro (h | h)
          · exact Or.inl h
          · rcases (by simpa using h : n = m.seq ∨ n ∈ rest.map (fun m => m.seq)) with he | hr
            · exact Or.inl (he ▸ hmem)
            · exact Or.inr hr
      · have hstep : mergeSeen (seen, acc) m = (m.seq :: seen, acc ++ [m]) := by
          simp [mergeSeen, hm]
        rw [List.foldl_cons, hstep]
        have hseen' : ∀ n, n ∈ m.seq :: seen ↔ n ∈ (acc ++ [m]).map (fun m => m.seq) := by
          intro n
          simp only [List.mem_cons, List.map_append, List.mem_append, List.map_cons,
            List.map_nil, List.mem_singleton, hseen n]
          tauto
        have hnd' : ((acc ++ [m]).map (fun m => m.seq)).Nodup := by
          have hnm : m.seq ∉ acc.map (fun m => m.seq) := fun hin => hm ((hseen m.seq).mpr hin)
          simp only [List.map_append, List.map_cons, List.map_nil]
          rw [List.nodup_append]
          refine ⟨hnd, List.nodup_singleton _, ?_⟩
          intro a ha hb
          rw [List.mem_singleton] at hb
          exact hnm (hb ▸ ha)
        obtain ⟨a, b, c⟩ := ih (m.seq :: seen) (acc ++ [m]) hseen' hnd'
        refine ⟨a, b, fun n => ?_⟩
        rw [c n]
        simp only [List.map_append, List.mem_append, List.map_cons, List.map_nil,
          List.mem_singleton, List.mem_cons]
        tauto

/-- C5 — Log merge idempotence and ordering: the pure merge of a
historical sequence `H` and a live sequence `L` is sorted ascending by
sequence number, carries no duplicate sequence numbers, retains exactly
the sequence numbers occurring in `H ++ L` (dedup by sequence number), and
is deterministic: merging the same inputs twice yields identical output. -/
theorem mergeLogs_spec (H L : List LogMessage) :
    List.Sorted logSeqLE (mergeLogs H L)
    ∧ ((mergeLogs H L).map (fun m => m.seq)).Nodup
    ∧ (∀ n, n ∈ (mergeLogs H L).map (fun m => m.seq) ↔
        n ∈ (H ++ L).map (fun m => m.seq))
    ∧ mergeLogs H L = mergeLogs H L := by
  obtain ⟨a, b, c⟩ := mergeSeen_fold (H ++ L) [] [] (by simp) (by simp)
  have hperm : List.Perm (mergeLogs H L) (((H ++ L).foldl mergeSeen ([], [])).2) :=
    List.perm_insertionSort logSeqLE _
  have hmap := hperm.map (fun m => m.seq)
  refine ⟨List.sorted_insertionSort logSeqLE _, ?_, fun n => ?_, rfl⟩
  · exact hmap.nodup_iff.mpr b
  · rw [hmap.mem_iff, c n]
    simp

/-- The `slice(-1000)` retention never leaves more than 1000 lines. -/
theorem appendLog_length_le (l : List LogMessage) (m : LogMessage) :
    (appendLog l m).length ≤ 1000 := by
  simp only [appendLog, List.length_drop, List.length_append, List.length_singleton]
  omega

/-- Folding the per-key append over any message list retains exactly the
most recent 1000 entries: the suffix of `init ++ ms` past the overflow. -/
theorem foldl_appendLog (ms : List LogMessage) :
    ∀ (init : List LogMessage), init.length ≤ 1000 →
    ms.foldl appendLog init = (init ++ ms).drop (init.length + ms.length - 1000) := by
  induction ms with
  | nil =>
      intro init h
      rw [List.foldl_nil, List.append_nil, List.length_nil, Nat.add_zero,
        Nat.sub_eq_zero_of_le h, List.drop_zero]
  | cons m rest ih =>
      intro init h
      rw [List.foldl_cons, ih (appendLog init m) (appendLog_length_le init m)]
      have hle : init.length + 1 - 1000 ≤ (init ++ [m]).length := by
        rw [List.length_append, List.length_singleton]
        omega
      have hsplit : (appendLog init m) ++ rest
          = ((init ++ [m]) ++ rest).drop (init.length + 1 - 1000) :=
        (List.drop_append_of_le_length hle).symm
      rw [hsplit, List.drop_drop, ← List.append_cons]
      have hlen : (appendLog init m).length = init.length + 1 - (init.length + 1 - 1000) := by
        rw [appendLog, List.length_drop, List.length_append, List.length_singleton]
      rw [hlen, List.length_cons]
      have hidx : (init.length + 1 - 1000)
            + ((init.length + 1 - (init.length + 1 - 1000)) + rest.length - 1000)
          = init.length + (rest.length + 1) - 1000 := by omega
      rw [hidx]

/-- `initial_status` leaves the logs slice untouched. -/
theorem handleInitialStatus_logs (e : WSEvent) (s : DashState) :
    (handleInitialStatus e s).logs = s.logs := by
  unfold handleInitialStatus
  split <;> rfl

/-- `host_status` leaves the logs slice untouched. -/
theorem handleHostStatus_logs (e : WSEvent) (s : DashState) :
    (handleHostStatus e s).logs = s.logs := by
  unfold handleHostStatus
  split <;> rfl

/-- `instance_state` leaves the logs slice untouched. -/
theorem handleInstanceState_logs (e : WSEvent) (s : DashState) :
    (handleInstanceState e s).logs = s.logs := by
  unfold handleInstanceState
  split
  all_goals first | rfl | (split <;> rfl)

/-- `host_health` leaves the logs slice untouched. -/
theorem handleHostHealth_logs (e : WSEvent) (s : DashState) :
    (handleHostHealth e s).logs = s.logs := by
  unfold handleHostHealth
  split
  all_goals first | rfl | (split <;> rfl)

/-- `request_start` leaves the logs slice untouched. -/
theorem handleRequestStart_logs (nowIso : String) (e : WSEvent) (s : DashState) :
    (handleRequestStart nowIso e s).logs = s.logs := by
  unfold handleRequestStart
  split
  all_goals first | rfl | (split <;> rfl)

/-- `request_routed` leaves the logs slice untouched. -/
theorem handleRequestRouted_logs (nowIso : String) (e : WSEvent) (s : DashState) :
    (handleRequestRouted nowIso e s).logs = s.logs := by
  unfold handleRequestRouted
  split
  all_goals first | rfl | (split <;> rfl)

/-- `request_success` leaves the logs slice untouched. -/
theorem handleRequestSuccess_logs (now : Nat) (nowIso : String) (e : WSEvent) (s : DashState) :
    (handleRequestSuccess now nowIso e s).logs = s.logs := by
  unfold handleRequestSuccess
  split
  all_goals first | rfl | (split <;> rfl)

/-- `request_error` leaves the logs slice untouched. -/
theorem handleRequestError_logs (nowIso : String) (e : WSEvent) (s : DashState) :
    (handleRequestError nowIso e s).logs = s.logs := by
  unfold handleRequestError
  split
  all_goals first | rfl | (split <;> rfl)

/-- `gateway_request` leaves the logs slice untouched. -/
theorem handleGatewayRequest_logs (e : WSEvent) (s : DashState) :
    (handleGatewayRequest e s).logs = s.logs := by
  unfold handleGatewayRequest
  split <;> rfl

/-- `filter_status` leaves the logs slice untouched. -/
theorem handleFilterStatus_logs (e : WSEvent) (s : DashState) :
    (handleFilterStatus e s).logs = s.logs := by
  unfold handleFilterStatus
  split <;> rfl

/-- The `log` branch either leaves the logs slice untouched or performs a
single ring-bounded append at one key. -/
theorem handleLog_logs_cases (nowIso : String) (e : WSEvent) (s : DashState) :
    (handleLog nowIso e s).logs = s.logs ∨
    ∃ key msg, (handleLog nowIso e s).logs
        = fun k => if k = key then appendLog (s.logs key) msg else s.logs k := by
  unfold handleLog
  split
  all_goals first
    | exact Or.inl rfl
    | (split
       · exact Or.inr ⟨_, _, rfl⟩
       · exact Or.inl rfl)

/-- Branch eliminator for the demultiplexer: a property holding after each
individual branch (and on the untouched state, covering `request_reroute`,
`keepalive` and unknown discriminants) holds after `handleEvent`. -/
theorem handleEvent_cases (now : Nat) (nowIso : String) (e : WSEvent) (s : DashState)
    (P : DashState → Prop)
    (p1 : P (handleInitialStatus e s)) (p2 : P (handleHostStatus e s))
    (p3 : P (handleLog nowIso e s)) (p4 : P (handleInstanceState e s))
    (p5 : P (handleHostHealth e s)) (p6 : P (handleRequestStart nowIso e s))
    (p7 : P (handleRequestRouted nowIso e s)) (p8 : P (handleRequestSuccess now nowIso e s))
    (p9 : P (handleRequestError nowIso e s)) (p10 : P (handleGatewayRequest e s))
    (p11 : P (handleFilterStatus e s)) (p12 : P s) :
    P (handleEvent now nowIso e s) := by
  rw [handleEvent.eq_def]
  by_cases h1 : e.type = "initial_status"
  · rw [if_pos h1]; exact p1
  rw [if_neg h1]
  by_cases h2 : e.type = "host_status"
  · rw [if_pos h2]; exact p2
  rw [if_neg h2]
  by_cases h3 : e.type = "log"
  · rw [if_pos h3]; exact p3
  rw [if_neg h3]
  by_cases h4 : e.type = "instance_state"
  · rw [if_pos h4]; exact p4
  rw [if_neg h4]
  by_cases h5 : e.type = "host_health"
  · rw [if_pos h5]; exact p5
  rw [if_neg h5]
  by_cases h6 : e.type = "request_start"
  · rw [if_pos h6]; exact p6
  rw [if_neg h6]
  by_cases h7 : e.type = "request_routed"
  · rw [if_pos h7]; exact p7
  rw [if_neg h7]
  by_cases h8 : e.type = "request_success"
  · rw [if_pos h8]; exact p8
  rw [if_neg h8]
  by_cases h9 : e.type = "request_error"
  · rw [if_pos h9]; exact p9
  rw [if_neg h9]
  by_cases h10 : e.type = "request_reroute"
  · rw [if_pos h10]; exact p12
  rw [if_neg h10]
  by_cases h11 : e.type = "gateway_request"
  · rw [if_pos h11]; exact p10
  rw [if_neg h11]
  by_cases h12 : e.type = "filter_status"
  · rw [if_pos h12]; exact p11
  rw [if_neg h12]
  by_cases h13 : e.type = "keepalive"
  · rw [if_pos h13]; exact p12
  rw [if_neg h13]
  exact p12

/-- Dispatch: a `log`-typed event is handled by the `log` branch. -/
theorem handleEvent_type_log (now : Nat) (nowIso : String) (e : WSEvent) (s : DashState)
    (h : e.type = "log") : handleEvent now nowIso e s = handleLog nowIso e s := by
  rw [handleEvent.eq_def, if_neg (by rw [h]; decide), if_neg (by rw [h]; decide), if_pos h]

/-- Dispatch: a `host_status`-typed event is handled by the `host_status`
branch. -/
theorem handleEvent_type_hostStatus (now : Nat) (nowIso : String) (e : WSEvent) (s : DashState)
    (h : e.type = "host_status") : handleEvent now nowIso e s = handleHostStatus e s := by
  rw [handleEvent.eq_def, if_neg (by rw [h]; decide), if_pos h]

/-- Dispatch: a `host_health`-typed event is handled by the `host_health`
branch. -/
theorem handleEvent_type_hostHealth (now : Nat) (nowIso : String) (e : WSEvent) (s : DashState)
    (h : e.type = "host_health") : handleEvent now nowIso e s = handleHostHealth e s := by
  rw [handleEvent.eq_def, if_neg (by rw [h]; decide), if_neg (by rw [h]; decide),
    if_neg (by rw [h]; decide), if_neg (by rw [h]; decide), if_pos h]

/-- Dispatch: a `request_start`-typed event is handled by the
`request_start` branch. -/
theorem handleEvent_type_start (now : Nat) (nowIso : String) (e : WSEvent) (s : DashState)
    (h : e.type = "request_start") :
    handleEvent now nowIso e s = handleRequestStart nowIso e s := by
  rw [handleEvent.eq_def, if_neg (by rw [h]; decide), if_neg (by rw [h]; decide),
    if_neg (by rw [h]; decide), if_neg (by rw [h]; decide), if_neg (by rw [h]; decide),
    if_pos h]

/-- Dispatch: a `request_routed`-typed event is handled by the
`request_routed` branch. -/
theorem handleEvent_type_routed (now : Nat) (nowIso : String) (e : WSEvent) (s : DashState)
    (h : e.type = "request_routed") :
    handleEvent now nowIso e s = handleRequestRouted nowIso e s := by
  rw [handleEvent.eq_def, if_neg (by rw [h]; decide), if_neg (by rw [h]; decide),
    if_neg (by rw [h]; decide), if_neg (by rw [h]; decide), if_neg (by rw [h]; decide),
    if_neg (by rw [h]; decide), if_pos h]

/-- Dispatch: a `request_success`-typed event is handled by the
`request_success` branch. -/
theorem handleEvent_type_success (now : Nat) (nowIso : String) (e : WSEvent) (s : DashState)
    (h : e.type = "request_success") :
    handleEvent now nowIso e s = handleRequestSuccess now nowIso e s := by
  rw [handleEvent.eq_def, if_neg (by rw [h]; decide), if_neg (by rw [h]; decide),
    if_neg (by rw [h]; decide), if_neg (by rw [h]; decide), if_neg (by rw [h]; decide),
    if_neg (by rw [h]; decide), if_neg (by rw [h]; decide), if_pos h]

/-- Dispatch: a `request_error`-typed event is handled by the
`request_error` branch. -/
theorem handleEvent_type_error (now : Nat) (nowIso : String) (e : WSEvent) (s : DashState)
    (h : e.type = "request_error") :
    handleEvent now nowIso e s = handleRequestError nowIso e s := by
  rw [handleEvent.eq_def, if_neg (by rw [h]; decide), if_neg (by rw [h]; decide),
    if_neg (by rw [h]; decide), if_neg (by rw [h]; decide), if_neg (by rw [h]; decide),
    if_neg (by rw [h]; decide), if_neg (by rw [h]; decide), if_neg (by rw [h]; decide),
    if_pos h]

/-- Effect of one `log` event on the logs slice: the target key is
appended to (ring-bounded), every other key is untouched. -/
theorem handleEvent_log (now : Nat) (nowIso : String) (hid iid ts : String)
    (d : LogEventData) (s : DashState) (h1 : hid ≠ "") (h2 : iid ≠ "") :
    (handleEvent now nowIso (logEvt hid iid ts d) s).logs =
      fun k => if k = logKey hid iid
        then appendLog (s.logs (logKey hid iid))
               { seq := d.seq, timestamp := ts, line := d.line }
        else s.logs k := by
  rw [handleEvent_type_log now nowIso (logEvt hid iid ts d) s rfl]
  simp only [handleLog, logEvt, h1, h2, ne_eq, not_false_iff, and_self, if_true,
    Option.getD_some]

/-- Every `handleEvent` branch either leaves the logs slice untouched or
performs a single ring-bounded append at one key. -/
theorem handleEvent_logs_cases (now : Nat) (nowIso : String) (e : WSEvent) (s : DashState) :
    (handleEvent now nowIso e s).logs = s.logs ∨
    ∃ key msg, (handleEvent now nowIso e s).logs
        = fun k => if k = key then appendLog (s.logs key) msg else s.logs k := by
  refine handleEvent_cases now nowIso e s
    (fun st => st.logs = s.logs ∨
      ∃ key msg, st.logs = fun k => if k = key then appendLog (s.logs key) msg else s.logs k)
    ?_ ?_ ?_ ?_ ?_ ?_ ?_ ?_ ?_ ?_ ?_ ?_
  · exact Or.inl (handleInitialStatus_logs e s)
  · exact Or.inl (handleHostStatus_logs e s)
  · exact handleLog_logs_cases nowIso e s
  · exact Or.inl (handleInstanceState_logs e s)
  · exact Or.inl (handleHostHealth_logs e s)
  · exact Or.inl (handleRequestStart_logs nowIso e s)
  · exact Or.inl (handleRequestRouted_logs nowIso e s)
  · exact Or.inl (handleRequestSuccess_logs now nowIso e s)
  · exact Or.inl (handleRequestError_logs nowIso e s)
  · exact Or.inl (handleGatewayRequest_logs e s)
  · exact Or.inl (handleFilterStatus_logs e s)
  · exact Or.inl rfl

/-- One event never pushes any log key above 1000 retained lines. -/
theorem handleEvent_logs_le (now : Nat) (nowIso : String) (e : WSEvent) (s : DashState)
    (h : ∀ k, (s.logs k).length ≤ 1000) (k : String) :
    ((handleEvent now nowIso e s).logs k).length ≤ 1000 := by
  rcases handleEvent_logs_cases now nowIso e s with hc | ⟨key, msg, hc⟩
  · rw [hc]; exact h k
  · rw [hc]
    show (if k = key then appendLog (s.logs key) msg else s.logs k).length ≤ 1000
    by_cases hk : k = key
    · rw [if_pos hk]; exact appendLog_length_le _ _
    · rw [if_neg hk]; exact h k

/-- Folding `log` events for one key accumulates through `appendLog` at
that key. -/
theorem foldl_handleEvent_log (hid iid : String) (h1 : hid ≠ "") (h2 : iid ≠ "")
    (now : Nat) (nowIso : String) (evts : List (LogEventData × String)) :
    ∀ (s : DashState),
    ((evts.foldl (fun st p => handleEvent now nowIso (logEvt hid iid p.2 p.1) st) s).logs
        (logKey hid iid))
      = evts.foldl (fun acc p => appendLog acc (toLogMsg p)) (s.logs (logKey hid iid)) := by
  induction evts with
  | nil => intro s; rfl
  | cons p rest ih =>
      intro s
      rw [List.foldl_cons, List.foldl_cons, ih]
      rw [handleEvent_log now nowIso hid iid p.2 p.1 s h1 h2]
      simp [toLogMsg]

/-- C4 — Log ring bound: folding 1500 `log` events for one key into a
state whose key is empty retains exactly the most recent 1000 of the
appended lines, in append order; and across arbitrary event sequences no
key ever exceeds 1000 retained lines. -/
theorem log_ring_bound :
    (∀ (hid iid : String), hid ≠ "" → iid ≠ "" →
      ∀ (evts : List (LogEventData × String)) (s : DashState) (now : Nat) (nowIso : String),
      evts.length = 1500 → s.logs (logKey hid iid) = [] →
      ((evts.foldl (fun st p => handleEvent now nowIso (logEvt hid iid p.2 p.1) st) s).logs
          (logKey hid iid) = (evts.map toLogMsg).drop 500
        ∧ ((evts.foldl (fun st p => handleEvent now nowIso (logEvt hid iid p.2 p.1) st) s).logs
          (logKey hid iid)).length = 1000))
    ∧ (∀ (evts : List (Nat × String × WSEvent)) (s : DashState),
      (∀ k, (s.logs k).length ≤ 1000) →
      ∀ k, ((evts.foldl (fun st q => handleEvent q.1 q.2.1 q.2.2 st) s).logs k).length ≤ 1000) := by
  constructor
  · intro hid iid h1 h2 evts s now nowIso hlen hempty
    have hfold := foldl_handleEvent_log hid iid h1 h2 now nowIso evts s
    rw [hempty] at hfold
    have hmap : evts.foldl (fun acc p => appendLog acc (toLogMsg p)) ([] : List LogMessage)
        = (evts.map toLogMsg).foldl appendLog [] := by
      rw [List.foldl_map]
    have hdrop := foldl_appendLog (evts.map toLogMsg) [] (by simp)
    rw [List.length_map, hlen] at hdrop
    simp only [List.nil_append, List.length_nil, Nat.zero_add] at hdrop
    have hfinal : (evts.foldl (fun st p => handleEvent now nowIso (logEvt hid iid p.2 p.1) st)
        s).logs (logKey hid iid) = (evts.map toLogMsg).drop (1500 - 1000) := by
      rw [hfold, hmap, hdrop]
    refine ⟨by simpa using hfinal, ?_⟩
    rw [hfinal]
    simp [List.length_drop, List.length_map, hlen]
  · intro evts
    induction evts with
    | nil => intro s h k; exact h k
    | cons q rest ih =>
        intro s h k
        rw [List.foldl_cons]
        exact ih (handleEvent q.1 q.2.1 q.2.2 s)
          (fun k2 => handleEvent_logs_le q.1 q.2.1 q.2.2 s h k2) k

/-- Unfolding of one scheduler step. -/
theorem advance_succ (fuel t : Nat) (s : DashState) :
    advance (fuel + 1) t s = match pickMin s.tasks with
      | none => s
      | some ((ft, task), rest) =>
          if ft ≤ t then advance fuel t (runTask ft task { s with tasks := rest }) else s := rfl

/-- With no pending timers the scheduler is the identity. -/
theorem advance_of_tasks_nil (fuel t : Nat) (s : DashState) (h : s.tasks = []) :
    advance fuel t s = s := by
  cases fuel with
  | zero => rfl
  | succ n => rw [advance_succ, h]; rfl

/-- A pending auto-removal timer that has fired, whose follow-up deletion
has not yet fired, leaves the state at phase one of `removeRequest`. -/
theorem advance_autoRemove_mid (t ft : Nat) (id : String) (s : DashState)
    (hts : s.tasks = [(ft, PendingTask.autoRemove id)]) (h1 : ft ≤ t) (h2 : t < ft + 350) :
    advance 4 t s = removeRequest ft id { s with tasks := [] } := by
  show advance (3 + 1) t s = _
  rw [advance_succ, hts]
  simp only [pickMin]
  rw [if_pos h1]
  show advance (2 + 1) t (removeRequest ft id { s with tasks := [] }) = _
  rw [advance_succ]
  simp only [removeRequest, List.nil_append, pickMin]
  rw [if_neg (by omega)]

/-- Once both the auto-removal timer and its follow-up deletion have
fired, the request entry is gone. -/
theorem advance_autoRemove_done (t ft : Nat) (id : String) (s : DashState)
    (hts : s.tasks = [(ft, PendingTask.autoRemove id)]) (h1 : ft + 350 ≤ t) :
    (advance 4 t s).requests id = none := by
  show (advance (3 + 1) t s).requests id = none
  rw [advance_succ, hts]
  simp only [pickMin]
  rw [if_pos (by omega)]
  show (advance (2 + 1) t (removeRequest ft id { s with tasks := [] })).requests id = none
  rw [advance_succ]
  simp only [removeRequest, List.nil_append, pickMin]
  rw [if_pos h1]
  rw [advance_of_tasks_nil _ _ _ rfl]
  simp [runTask]

/-- A pending deletion timer that has not fired yet leaves the state
unchanged. -/
theorem advance_delete_early (t ft : Nat) (id : String) (s : DashState)
    (hts : s.tasks = [(ft, PendingTask.deleteEntry id)]) (h : t < ft) :
    advance 2 t s = s := by
  show advance (1 + 1) t s = s
  rw [advance_succ, hts]
  simp only [pickMin]
  rw [if_neg (by omega)]

/-- A fired deletion timer removes exactly its request entry. -/
theorem advance_delete_fire (t ft : Nat) (id : String) (s : DashState)
    (hts : s.tasks = [(ft, PendingTask.deleteEntry id)]) (h : ft ≤ t) :
    (advance 2 t s).requests = fun k => if k = id then none else s.requests k := by
  show (advance (1 + 1) t s).requests = _
  rw [advance_succ, hts]
  simp only [pickMin]
  rw [if_pos h]
  rw [advance_of_tasks_nil _ _ _ rfl]
  rfl

/-- Equation for the `request_start` branch of the demultiplexer. -/
theorem handleEvent_start_eq (now : Nat) (nowIso : String) (d : RoutingEventData)
    (s : DashState) (h : d.request_id ≠ "") :
    handleEvent now nowIso (routingEvt "request_start" d) s
      = { s with requests := updateRequest nowIso d.request_id (applyStart d) s.requests } := by
  rw [handleEvent_type_start now nowIso (routingEvt "request_start" d) s rfl]
  simp only [handleRequestStart, routingEvt, h, ne_eq, not_false_iff, if_true]

/-- Equation for the `request_routed` branch of the demultiplexer. -/
theorem handleEvent_routed_eq (now : Nat) (nowIso : String) (d : RoutingEventData)
    (s : DashState) (h : d.request_id ≠ "") :
    handleEvent now nowIso (routingEvt "request_routed" d) s
      = { s with requests := updateRequest nowIso d.request_id (applyRouted d) s.requests } := by
  rw [handleEvent_type_routed now nowIso (routingEvt "request_routed" d) s rfl]
  simp only [handleRequestRouted, routingEvt, h, ne_eq, not_false_iff, if_true]

/-- Equation for the `request_success` branch of the demultiplexer: the
entry update plus the 5000 ms auto-removal timer. -/
theorem handleEvent_success_eq (now : Nat) (nowIso : String) (d : RoutingEventData)
    (s : DashState) (h : d.request_id ≠ "") :
    handleEvent now nowIso (routingEvt "request_success" d) s
      = { s with
          requests := updateRequest nowIso d.request_id (applySuccess d) s.requests
          tasks := s.tasks ++ [(now + 5000, PendingTask.autoRemove d.request_id)] } := by
  rw [handleEvent_type_success now nowIso (routingEvt "request_success" d) s rfl]
  simp only [handleRequestSuccess, routingEvt, h, ne_eq, not_false_iff, if_true]

/-- Equation for the `request_error` branch of the demultiplexer: entry
update only — no timer is scheduled. -/
theorem handleEvent_error_eq (now : Nat) (nowIso : String) (d : RoutingEventData)
    (s : DashState) (h : d.request_id ≠ "") :
    handleEvent now nowIso (routingEvt "request_error" d) s
      = { s with requests := updateRequest nowIso d.request_id (applyError d) s.requests } := by
  rw [handleEvent_type_error now nowIso (routingEvt "request_error" d) s rfl]
  simp only [handleRequestError, routingEvt, h, ne_eq, not_false_iff, if_true]

/-- C1 (amended) — Request status overwrite: each routing event sets the
entry's status unconditionally to the status its discriminant dictates
(`request_start` to `pending`, `request_routed` to `processing`,
`request_success` to `success`, `request_error` to `error`), regardless of
the entry's previous status; hence a `request_start` arriving for an entry
already in `processing` or a terminal state regresses it to `pending`, and
monotonicity holds only when the events for an id arrive in lifecycle
order. -/
theorem routing_status_overwrite (now : Nat) (nowIso : String) (d : RoutingEventData)
    (s : DashState) (h : d.request_id ≠ "") :
    (((handleEvent now nowIso (routingEvt "request_start" d) s).requests d.request_id).map
        (fun e => e.status) = some "pending")
    ∧ (((handleEvent now nowIso (routingEvt "request_routed" d) s).requests d.request_id).map
        (fun e => e.status) = some "processing")
    ∧ (((handleEvent now nowIso (routingEvt "request_success" d) s).requests d.request_id).map
        (fun e => e.status) = some "success")
    ∧ (((handleEvent now nowIso (routingEvt "request_error" d) s).requests d.request_id).map
        (fun e => e.status) = some "error") := by
  refine ⟨?_, ?_, ?_, ?_⟩
  · rw [handleEvent_start_eq now nowIso d s h]
    simp [updateRequest, applyStart]
  · rw [handleEvent_routed_eq now nowIso d s h]
    simp [updateRequest, applyRouted]
  · rw [handleEvent_success_eq now nowIso d s h]
    simp [updateRequest, applySuccess]
  · rw [handleEvent_error_eq now nowIso d s h]
    simp [updateRequest, applyError]

/-- C1 witness: a duplicate `request_start` for the `processing` request
`r1` leaves it `pending`. -/
theorem routing_status_overwrite_witness :
    ((handleEvent 0 "t0" (routingEvt "request_start" dStart) c1s2).requests "r1").map
      (fun e => e.status) = some "pending" :=
  (routing_status_overwrite 0 "t0" dStart c1s2 (by decide)).1

/-- C1 counterexample: after `start; routed` the request `r1` is
`processing`, and a duplicate `request_start` moves it backward to
`pending` — the observed status sequence regresses. -/
theorem request_start_regresses :
    ((c1s2.requests "r1").map (fun e => e.status) = some "processing")
    ∧ ((c1s3.requests "r1").map (fun e => e.status) = some "pending") :=
  ⟨rfl, rfl⟩

/-- C2 — Reconnect-scheduling idempotence: in every reachable state of the
connection manager at most one reconnect timer is pending, and whenever a
connection is open no reconnect timer is pending at all. -/
theorem reconnect_single_timer {s : ConnState} (h : ConnReach s) :
    s.pendingReconnects ≤ 1
    ∧ (s.sock = some SockPhase.opened → s.pendingReconnects = 0) := by
  obtain ⟨h1, h2⟩ := connReach_inv h
  refine ⟨h1, fun hop => ?_⟩
  by_contra hne
  have hp1 : s.pendingReconnects = 1 := by omega
  have hn := h2 hp1
  rw [hop] at hn
  exact Option.noConfusion hn

/-- C2 witness: the invariant evaluated after `close` from the initial
state, and after a successful `open`. -/
theorem reconnect_single_timer_witness :
    (({ sock := none, isConnected := false, pingActive := false, pendingReconnects := connInit.pendingReconnects + 1 } : ConnState).pendingReconnects ≤ 1)
    ∧ (({ connInit with sock := some SockPhase.opened, isConnected := true, pingActive := true } : ConnState).pendingReconnects = 0) :=
  ⟨(reconnect_single_timer (ConnReach.onClose ConnReach.init (by decide))).1,
   (reconnect_single_timer (ConnReach.onOpen ConnReach.init rfl)).2 rfl⟩

/-- C3 (amended) — Auto-expiry asymmetry: `request_success` sets the
status to `success`, records the duration, and schedules auto-removal
5000 ms later; since that removal is two-phase, the entry is still present
(flagged `removing`) from 5000 ms until just before 5350 ms and is absent
once 5350 ms or more have elapsed.  `request_error` sets the status to
`error`, schedules nothing, and the entry persists under the scheduler
until `removeRequest` is called. -/
theorem success_error_expiry (now : Nat) (nowIso : String) (d : RoutingEventData)
    (s : DashState) (h : d.request_id ≠ "") (ht : s.tasks = []) :
    (((handleEvent now nowIso (routingEvt "request_success" d) s).requests d.request_id).map
        (fun e => e.status) = some "success")
    ∧ (((handleEvent now nowIso (routingEvt "request_success" d) s).requests d.request_id).map
        (fun e => e.duration) = some d.duration)
    ∧ ((handleEvent now nowIso (routingEvt "request_success" d) s).tasks
        = [(now + 5000, PendingTask.autoRemove d.request_id)])
    ∧ (∀ t, now + 5000 ≤ t → t < now + 5350 →
        ((advance 4 t (handleEvent now nowIso (routingEvt "request_success" d) s)).requests
            d.request_id).map (fun e => e.removing) = some (some true))
    ∧ (∀ t, now + 5350 ≤ t →
        (advance 4 t (handleEvent now nowIso (routingEvt "request_success" d) s)).requests
          d.request_id = none)
    ∧ ((handleEvent now nowIso (routingEvt "request_error" d) s).tasks = [])
    ∧ (((handleEvent now nowIso (routingEvt "request_error" d) s).requests d.request_id).map
        (fun e => e.status) = some "error")
    ∧ (∀ fuel t,
        (advance fuel t (handleEvent now nowIso (routingEvt "request_error" d) s)).requests
            d.request_id
          = (handleEvent now nowIso (routingEvt "request_error" d) s).requests d.request_id) := by
  have hs := handleEvent_success_eq now nowIso d s h
  have he := handleEvent_error_eq now nowIso d s h
  have htas : (handleEvent now nowIso (routingEvt "request_success" d) s).tasks
      = [(now + 5000, PendingTask.autoRemove d.request_id)] := by
    rw [hs]
    simp [ht]
  have hreq : (handleEvent now nowIso (routingEvt "request_success" d) s).requests d.request_id
      = some (applySuccess d ((s.requests d.request_id).getD (freshRequest d.request_id nowIso))) := by
    rw [hs]
    simp [updateRequest]
  have hetas : (handleEvent now nowIso (routingEvt "request_error" d) s).tasks = [] := by
    rw [he]
    exact ht
  refine ⟨?_, ?_, htas, ?_, ?_, hetas, ?_, ?_⟩
  · rw [hreq]
    simp [applySuccess]
  · rw [hreq]
    simp [applySuccess]
  · intro t h1 h2
    rw [advance_autoRemove_mid t (now + 5000) d.request_id _ htas h1 (by omega)]
    simp [removeRequest, hreq]
  · intro t h1
    exact advance_autoRemove_done t (now + 5000) d.request_id _ htas (by omega)
  · rw [he]
    simp [updateRequest, applyError]
  · intro fuel t
    rw [advance_of_tasks_nil fuel t _ hetas]

/-- C3 witness: in the concrete `start; routed; success` run the entry is
gone 6000 ms after success with no manual removal. -/
theorem success_error_expiry_witness :
    (advance 4 6000 (handleEvent 0 "t2" (routingEvt "request_success" dSuccess) initState)).requests
      "r1" = none :=
  (success_error_expiry 0 "t2" dSuccess initState (by decide) rfl).2.2.2.2.1 6000 (by omega)

/-- C3 counterexample: 5200 ms after `request_success` — more than the
claimed 5000 ms — with no manual removal call, the entry for `r1` is still
present in the requests map (the 5000 ms timer only marks it `removing`;
physical deletion happens at 5350 ms). -/
theorem success_present_at_5200 :
    ((advance 4 5200 c3s).requests "r1").isSome = true := rfl

/-- C6 — Filter merge round-trip: `setFilter {status := "error"}` against
the default filter yields the merged filter locally, and sends exactly the
message `set_filter` carrying that merged object precisely when the
connection is open; otherwise nothing is sent. -/
theorem setFilter_roundTrip (conn : Option WsReadyState) :
    ((setFilter conn DEFAULT_FILTER { status := some "error" }).1
      = { status := "error", request_type := "all", model := none, host_id := none })
    ∧ ((setFilter conn DEFAULT_FILTER { status := some "error" }).2
      = if conn = some WsReadyState.openReady
        then [OutMessage.setFilterMsg
               { status := "error", request_type := "all", model := none, host_id := none }]
        else []) :=
  ⟨rfl, rfl⟩

/-- C8 — Unknown-discriminant tolerance: an event whose type is not one of
the thirteen recognized discriminants leaves the entire state (all five
slices, the filter, and the timer queue) exactly unchanged. -/
theorem unknown_event_ignored (now : Nat) (nowIso : String) (e : WSEvent) (s : DashState)
    (h : e.type ∉ recognizedEventTypes) : handleEvent now nowIso e s = s := by
  simp only [recognizedEventTypes, List.mem_cons, List.mem_singleton, not_or] at h
  obtain ⟨h1, h2, h3, h4, h5, h6, h7, h8, h9, h10, h11, h12, h13, -⟩ := h
  rw [handleEvent.eq_def, if_neg h1, if_neg h2, if_neg h3, if_neg h4, if_neg h5, if_neg h6,
    if_neg h7, if_neg h8, if_neg h9, if_neg h10, if_neg h11, if_neg h12, if_neg h13]

/-- C8 witness: a `future_feature_x` event leaves the state untouched. -/
theorem unknown_event_ignored_witness :
    handleEvent 0 "ts" unknownEvt initState = initState :=
  unknown_event_ignored 0 "ts" unknownEvt initState (by decide)

/-- C9 — `host_health` frame effect: for a host present in the map only
that host's memory field changes (to the payload's memory), every other
field of the entry and every other entry are unchanged; for an unknown
host the hosts map is unchanged everywhere. -/
theorem host_health_frame (now : Nat) (nowIso : String) (s : DashState) (hid : String)
    (mem : Option MemoryInfo) (hne : hid ≠ "") :
    (∀ h0, s.hosts hid = some h0 →
      ((handleEvent now nowIso (healthEvt hid mem) s).hosts hid = some { h0 with memory := mem })
      ∧ (∀ k, k ≠ hid → (handleEvent now nowIso (healthEvt hid mem) s).hosts k = s.hosts k))
    ∧ (s.hosts hid = none →
      ∀ k, (handleEvent now nowIso (healthEvt hid mem) s).hosts k = s.hosts k) := by
  rw [handleEvent_type_hostHealth now nowIso (healthEvt hid mem) s rfl]
  simp only [handleHostHealth, healthEvt, hne, ne_eq, not_false_iff, if_true]
  constructor
  · intro h0 hh
    refine ⟨by simp [hh], fun k hk => by simp [hk]⟩
  · intro hnone k
    by_cases hk : k = hid
    · subst hk
      simp [hnone]
    · simp [hk]

/-- C9 witness: patching memory of the known host `h1` changes only its
memory field; host `h2` is untouched; a `host_health` for the unknown host
`zz` changes nothing. -/
theorem host_health_frame_witness :
    ((handleEvent 0 "ts" (healthEvt "h1" memX) stH).hosts "h1"
        = some { hostA with memory := memX })
    ∧ ((handleEvent 0 "ts" (healthEvt "h1" memX) stH).hosts "h2" = stH.hosts "h2")
    ∧ (∀ k, (handleEvent 0 "ts" (healthEvt "zz" memX) stH).hosts k = stH.hosts k) :=
  ⟨((host_health_frame 0 "ts" stH "h1" memX (by decide)).1 hostA (by decide)).1,
   ((host_health_frame 0 "ts" stH "h1" memX (by decide)).1 hostA (by decide)).2 "h2" (by decide),
   (host_health_frame 0 "ts" stH "zz" memX (by decide)).2 (by decide)⟩

/-- C10 — `host_status` performs a full replacement: the entry at the
payload's host id becomes exactly the payload (so its memory field is
exactly the payload's, discarding any memory snapshot a previous
`host_health` attached), and all other entries are unchanged. -/
theorem host_status_full_replace (now : Nat) (nowIso : String) (s : DashState)
    (d : HostStatusData) :
    ((handleEvent now nowIso (hostStatusEvt d) s).hosts d.host_id = some d)
    ∧ (∀ k, k ≠ d.host_id → (handleEvent now nowIso (hostStatusEvt d) s).hosts k = s.hosts k)
    ∧ (((handleEvent now nowIso (hostStatusEvt d) s).hosts d.host_id).map (fun h0 => h0.memory)
      = some d.memory) := by
  rw [handleEvent_type_hostStatus now nowIso (hostStatusEvt d) s rfl]
  refine ⟨by simp [handleHostStatus, hostStatusEvt], fun k hk => ?_, by simp [handleHostStatus, hostStatusEvt]⟩
  simp [handleHostStatus, hostStatusEvt, hk]

/-- C10 witness: replacing `h1` (which carried a memory snapshot) with a
payload lacking memory leaves the entry equal to the payload with
`memory = none`; `h2` is untouched. -/
theorem host_status_full_replace_witness :
    ((handleEvent 0 "ts" (hostStatusEvt hostB) stHM).hosts "h1" = some hostB)
    ∧ (((handleEvent 0 "ts" (hostStatusEvt hostB) stHM).hosts "h1").map (fun h0 => h0.memory)
        = some none)
    ∧ ((handleEvent 0 "ts" (hostStatusEvt hostB) stHM).hosts "h2" = stHM.hosts "h2") :=
  ⟨(host_status_full_replace 0 "ts" stHM hostB).1,
   (host_status_full_replace 0 "ts" stHM hostB).2.2,
   (host_status_full_replace 0 "ts" stHM hostB).2.1 "h2" (by decide)⟩

/-- C7 — Two-phase removal: for a present entry, `removeRequest` flags it
`removing` immediately (still present before 350 ms elapse) and the entry
is gone once 350 ms or more elapse; for an absent id phase one changes
nothing but a (harmless) deletion is still scheduled. -/
theorem removeRequest_twoPhase (now : Nat) (id : String) (s : DashState) (ht : s.tasks = []) :
    (∀ e, s.requests id = some e →
      ((removeRequest now id s).requests id = some { e with removing := some true })
      ∧ (∀ t, t < now + 350 →
          (advance 2 t (removeRequest now id s)).requests id
            = some { e with removing := some true })
      ∧ (∀ t, now + 350 ≤ t → (advance 2 t (removeRequest now id s)).requests id = none))
    ∧ (s.requests id = none →
      (∀ k, (removeRequest now id s).requests k = s.requests k)
      ∧ ((removeRequest now id s).tasks = [(now + 350, PendingTask.deleteEntry id)])
      ∧ (∀ t k, (advance 2 t (removeRequest now id s)).requests k = s.requests k)) := by
  have htas : (removeRequest now id s).tasks = [(now + 350, PendingTask.deleteEntry id)] := by
    simp [removeRequest, ht]
  constructor
  · intro e he
    have hmark : (removeRequest now id s).requests id = some { e with removing := some true } := by
      simp [removeRequest, he]
    refine ⟨hmark, ?_, ?_⟩
    · intro t hlt
      rw [advance_delete_early t (now + 350) id _ htas hlt]
      exact hmark
    · intro t hge
      rw [advance_delete_fire t (now + 350) id _ htas hge]
      simp
  · intro hnone
    have hmark : ∀ k, (removeRequest now id s).requests k = s.requests k := by
      intro k
      by_cases hk : k = id
      · subst hk
        simp [removeRequest, hnone]
      · simp [removeRequest, hk]
    refine ⟨hmark, htas, ?_⟩
    intro t k
    by_cases hge : now + 350 ≤ t
    · rw [advance_delete_fire t (now + 350) id _ htas hge]
      by_cases hk : k = id
      · subst hk
        simp [hnone]
      · simp [hk, hmark k]
    · rw [advance_delete_early t (now + 350) id _ htas (by omega)]
      exact hmark k

/-- C7 witness: removing the present request `r1` marks it immediately and
it is gone at 400 ms; removing the absent id `zz` changes nothing in phase
one. -/
theorem removeRequest_twoPhase_witness :
    ((removeRequest 0 "r1" stR).requests "r1" = some { reqR with removing := some true })
    ∧ ((advance 2 400 (removeRequest 0 "r1" stR)).requests "r1" = none)
    ∧ ((removeRequest 0 "zz" stR).requests "r1" = stR.requests "r1") :=
  ⟨((removeRequest_twoPhase 0 "r1" stR rfl).1 reqR (by decide)).1,
   ((removeRequest_twoPhase 0 "r1" stR rfl).1 reqR (by decide)).2.2 400 (by omega),
   ((removeRequest_twoPhase 0 "zz" stR rfl).2 (by decide)).1 "r1"⟩

/-- C4 witness: 1500 appended lines for key `h:i` leave exactly 1000. -/
theorem log_ring_bound_witness :
    ((wMsgs.foldl (fun st p => handleEvent 0 "now" (logEvt "h" "i" p.2 p.1) st) initState).logs
        (logKey "h" "i")).length = 1000 :=
  (log_ring_bound.1 "h" "i" (by decide) (by decide) wMsgs initState 0 "now"
    (by simp [wMsgs]) rfl).2

end SolarWebUI
